import Mathlib

/-!
Verification of the token-binding and request-authentication subsystem of the
MSAL-family authentication SDK: the CryptoOps key store and PoP pipeline
(`NativeAuthPublicClientApplication.ts`), the PoP token generator payload, the
request-throttling gate around `BaseClient.sendPostRequest`, and the
native-auth `signIn` controller flow.

External collaborators (the browser crypto primitives, base64url encoders, and
the keyed storage backend) are modelled as capability records, following the
spec's capability-interface design; the CryptoOps / BaseClient / controller
logic itself is translated from the source.
-/

namespace Msal

/-- Model of a platform `CryptoKey` handle: key material identity plus the
extractable flag the WebCrypto API tracks on every key object. -/
structure CryptoKey where
  keyId : Nat
  extractable : Bool
  deriving DecidableEq, Repr

/-- Model of a `JsonWebKey` restricted to the fields this subsystem reads:
`alg`, `d` (private exponent), `e`, `kty`, `n`. Absent fields are `none`
(JavaScript `undefined`). -/
structure JsonWebKey where
  alg : Option String := none
  d : Option String := none
  e : Option String := none
  kty : Option String := none
  n : Option String := none
  deriving DecidableEq, Repr

/-- Model of `CryptoKeyOptions`: a key-generation profile, identified by name,
carrying the usages the re-imported private key is given. -/
structure CryptoKeyOptions where
  name : String
  privateKeyUsage : List String
  deriving DecidableEq, Repr

/-- Modelled from the spec: `CryptoKeyConfig.AccessTokenBinding`
(`CryptoConstants` is not part of the excerpt) — the default access-token
binding profile. -/
def CryptoKeyConfig.AccessTokenBinding : CryptoKeyOptions :=
  { name := "AccessTokenBinding", privateKeyUsage := ["sign"] }

/-- Modelled from the spec: `CryptoKeyConfig.RefreshTokenBinding` — the
alternate profile selected for refresh-token (stk_jwk) binding. -/
def CryptoKeyConfig.RefreshTokenBinding : CryptoKeyOptions :=
  { name := "RefreshTokenBinding", privateKeyUsage := ["sign", "decrypt"] }

/-- Source `CryptoKeyTypes` from `msal-common` constants: which binding key a request
asks for. -/
inductive CryptoKeyTypes where
  | ReqCnf
  | StkJwk
  deriving DecidableEq, Repr

/-- Result of `BrowserCrypto.generateKeyPair`: TypeScript's `CryptoKeyPair`
lists both halves as optional, which is why `CryptoOps` checks them. -/
structure KeyGenResult where
  publicKey : Option CryptoKey
  privateKey : Option CryptoKey
  deriving DecidableEq, Repr

/-- The `BrowserAuthError` values this subsystem can raise. -/
inductive BrowserAuthError where
  | keyGenerationFailed (msg : Option String)
  | signingKeyNotFoundInStorage
  deriving DecidableEq, Repr

/-- Source `CachedKeyPair` from `CryptoOps`: the value stored in the asymmetric
partition of the key store. -/
structure CachedKeyPair where
  publicKey : CryptoKey
  privateKey : CryptoKey
  requestMethod : Option String
  requestUri : Option String
  deriving DecidableEq, Repr

/-- Modelled from the spec: `AsyncMemoryStorage` (not part of the excerpt) is
a namespaced key→value store; one namespace is one association list. -/
def StoreMap (α : Type) : Type := List (String × α)

namespace AsyncMemoryStorage

/-- Modelled from the spec: `getItem` of the keyed storage interface. -/
def getItem {α : Type} (s : StoreMap α) (k : String) : Option α :=
  (List.find? (fun p => p.1 = k) s).map Prod.snd

/-- Modelled from the spec: `setItem` upserts, overwriting silently when the
key is already present. -/
def setItem {α : Type} (s : StoreMap α) (k : String) (v : α) : StoreMap α :=
  (k, v) :: List.filter (fun p => p.1 ≠ k) s

/-- Modelled from the spec: `removeItem` drops the key from the namespace. -/
def removeItem {α : Type} (s : StoreMap α) (k : String) : StoreMap α :=
  List.filter (fun p => p.1 ≠ k) s

/-- Modelled from the spec: `containsKey` reports presence of the key. -/
def containsKey {α : Type} (s : StoreMap α) (k : String) : Bool :=
  List.any s (fun p => p.1 = k)

/-- Modelled from the spec: `deleteDatabase` wipes this namespace's backing
store and reports success; the two namespaces are independent. -/
def deleteDatabase {α : Type} (_ : StoreMap α) : Bool × StoreMap α :=
  (true, [])

end AsyncMemoryStorage

/-- Source `CryptoKeyStore` from `CryptoOps`: the two partitions of the key store. -/
structure CryptoKeyStore where
  asymmetricKeys : StoreMap CachedKeyPair
  symmetricKeys : StoreMap CryptoKey

/-- The capability environment consumed by `CryptoOps`: the `BrowserCrypto`
primitives and the base64url encoders, per the spec's external-interface
contract. -/
structure CryptoEnv where
  generateKeyPair : CryptoKeyOptions → Bool → Except (Option String) KeyGenResult
  exportJwk : CryptoKey → JsonWebKey
  importJwk : CryptoKeyOptions → JsonWebKey → Bool → List String → CryptoKey
  sign : CryptoKeyOptions → CryptoKey → List Nat → List Nat
  sha256Digest : String → List Nat
  urlEncode : String → String
  urlEncodeArr : List Nat → String

/-- Serialize one string-valued JSON field. -/
def jsonStrField (k v : String) : String :=
  "\"" ++ k ++ "\":\"" ++ v ++ "\""

/-- Modelled from the spec: `BrowserCrypto.getJwkString` (not part of the
excerpt) serializes the JWK's present fields in sorted key order — for the
thumbprint object that is exactly `e`, `kty`, `n` in that order. -/
def getJwkString (jwk : JsonWebKey) : String :=
  let fields := [("alg", jwk.alg), ("d", jwk.d), ("e", jwk.e),
    ("kty", jwk.kty), ("n", jwk.n)]
  let present := fields.filterMap (fun p => p.2.map (fun v => jsonStrField p.1 v))
  "\x7b" ++ String.intercalate "," present ++ "\x7d"

namespace CryptoOps

/-- Source `CryptoOps.EXTRACTABLE`: key pairs are generated extractable so the
private half can be exported and re-imported unextractable. -/
def EXTRACTABLE : Bool := true

/-- Source `CryptoOps.hashString`: base64url of the SHA-256 digest of the input. -/
def hashString (env : CryptoEnv) (plainText : String) : String :=
  env.urlEncodeArr (env.sha256Digest plainText)

/-- Source `CryptoOps.generateKeyPairHelper`: wraps `generateKeyPair`, converting any
thrown error into a key-generation-failed `BrowserAuthError`. -/
def generateKeyPairHelper (env : CryptoEnv) (keyOptions : CryptoKeyOptions) :
    Except BrowserAuthError KeyGenResult :=
  match env.generateKeyPair keyOptions EXTRACTABLE with
  | .ok kp => .ok kp
  | .error msg => .error (.keyGenerationFailed msg)

/-- Source `SignedHttpRequestParameters`: the request fields
`getPublicKeyThumbprint` reads. -/
structure SignedHttpRequestParameters where
  resourceRequestMethod : Option String
  resourceRequestUri : Option String
  deriving DecidableEq, Repr

/-- The key-options selection in `getPublicKeyThumbprint`: the refresh-token
binding profile for `StkJwk`, the access-token binding profile otherwise. -/
def keyOptionsFor (keyType : Option CryptoKeyTypes) : CryptoKeyOptions :=
  if keyType = some CryptoKeyTypes.StkJwk then
    CryptoKeyConfig.RefreshTokenBinding
  else
    CryptoKeyConfig.AccessTokenBinding

/-- Source `CryptoOps.getPublicKeyThumbprint`: generates a key pair, derives the
thumbprint of the canonicalized public JWK, re-imports the private key
unextractable, stores the pair under the thumbprint and returns it. The final
key store is returned alongside the result so that the error paths' effect on
storage is visible. -/
def getPublicKeyThumbprint (env : CryptoEnv) (st : CryptoKeyStore)
    (request : SignedHttpRequestParameters) (keyType : Option CryptoKeyTypes) :
    Except BrowserAuthError String × CryptoKeyStore :=
  let keyOptions := keyOptionsFor keyType
  match generateKeyPairHelper env keyOptions with
  | .error e => (.error e, st)
  | .ok keyPair =>
    match keyPair.publicKey, keyPair.privateKey with
    | some pub, some priv =>
      let publicKeyJwk := env.exportJwk pub
      let pubKeyThumprintObj : JsonWebKey :=
        { e := publicKeyJwk.e, kty := publicKeyJwk.kty, n := publicKeyJwk.n }
      let publicJwkString := getJwkString pubKeyThumprintObj
      let publicJwkHash := hashString env publicJwkString
      let privateKeyJwk := env.exportJwk priv
      let unextractablePrivateKey :=
        env.importJwk keyOptions privateKeyJwk false keyOptions.privateKeyUsage
      let asym := AsyncMemoryStorage.setItem st.asymmetricKeys publicJwkHash
        { privateKey := unextractablePrivateKey
          publicKey := pub
          requestMethod := request.resourceRequestMethod
          requestUri := request.resourceRequestUri }
      (.ok publicJwkHash, { st with asymmetricKeys := asym })
    | _, _ =>
      (.error (.keyGenerationFailed (some
        "Either the public or private key component is missing from the generated CryptoKeyPair")),
       st)

/-- Source `CryptoOps.removeTokenBindingKey`: removes the kid from the asymmetric
partition and returns the negation of a `containsKey` check made after the
removal. -/
def removeTokenBindingKey (st : CryptoKeyStore) (kid : String) :
    Bool × CryptoKeyStore :=
  let asym := AsyncMemoryStorage.removeItem st.asymmetricKeys kid
  let keyFound := AsyncMemoryStorage.containsKey asym kid
  (!keyFound, { st with asymmetricKeys := asym })

/-- Source `CryptoOps.clearKeystore`: takes `Object.keys(this.cache)` and calls
`deleteDatabase` on the store under the first name only — `asymmetricKeys`,
the first field of the `CryptoKeyStore` literal. The symmetric partition is
never touched. -/
def clearKeystore (st : CryptoKeyStore) : Bool × CryptoKeyStore :=
  let (ok, asym) := AsyncMemoryStorage.deleteDatabase st.asymmetricKeys
  (ok, { st with asymmetricKeys := asym })

end CryptoOps

/-- The JWT header built by `CryptoOps.signJwt`: `alg` taken from the public
JWK (possibly absent), `type` fixed to the JWK key format constant. -/
structure JwtHeader where
  alg : Option String
  type : String
  deriving DecidableEq, Repr

/-- Source `SignedHttpRequest`: the SHR claim set. Absent fields are `none`
(JavaScript `undefined`); `cnf` is attached by `signJwt`. -/
structure SignedHttpRequest where
  «at» : Option String := none
  ts : Option Nat := none
  m : Option String := none
  u : Option String := none
  nonce : Option String := none
  p : Option String := none
  q : Option (List String × String) := none
  client_claims : Option String := none
  cnf : Option JsonWebKey := none
  deriving DecidableEq, Repr

/-- Serialize the JWT header as `JSON.stringify` does: insertion order
`alg`, `type`, omitting `undefined`-valued fields. -/
def jsonHeader (h : JwtHeader) : String :=
  let fields := (match h.alg with
    | some a => [jsonStrField "alg" a]
    | none => []) ++ [jsonStrField "type" h.type]
  "\x7b" ++ String.intercalate "," fields ++ "\x7d"

/-- Serialize the `q` tuple `[reservedParams, queryString]` as a JSON array. -/
def jsonQ (q : List String × String) : String :=
  "[[" ++ String.intercalate "," (q.1.map (fun s => "\"" ++ s ++ "\"")) ++
    "],\"" ++ q.2 ++ "\"]"

/-- Serialize the SHR payload as `JSON.stringify` does: insertion order
`at`, `ts`, `m`, `u`, `nonce`, `p`, `q`, `client_claims`, `cnf`, omitting
`undefined`-valued fields; `cnf` serializes as an object whose single `jwk`
member is the parsed public-key JWK (re-serialized by the same sorted-key
stringification that produced it). -/
def jsonPayload (p : SignedHttpRequest) : String :=
  let fields :=
    (p.«at».map (fun v => [jsonStrField "at" v])).getD [] ++
    (p.ts.map (fun v => ["\"ts\":" ++ toString v])).getD [] ++
    (p.m.map (fun v => [jsonStrField "m" v])).getD [] ++
    (p.u.map (fun v => [jsonStrField "u" v])).getD [] ++
    (p.nonce.map (fun v => [jsonStrField "nonce" v])).getD [] ++
    (p.p.map (fun v => [jsonStrField "p" v])).getD [] ++
    (p.q.map (fun v => ["\"q\":" ++ jsonQ v])).getD [] ++
    (p.client_claims.map (fun v => [jsonStrField "client_claims" v])).getD [] ++
    (p.cnf.map (fun v => ["\"cnf\":\x7b\"jwk\":" ++ getJwkString v ++ "\x7d"])).getD []
  "\x7b" ++ String.intercalate "," fields ++ "\x7d"

/-- Source `BrowserStringUtils.stringToArrayBuffer`: the byte buffer of the token
string. The token string is ASCII (base64url alphabet plus a dot), so the
code-point list is its UTF-8 byte sequence. -/
def stringToBytes (s : String) : List Nat :=
  s.data.map Char.toNat

/-- Source `JSON.parse(getJwkString jwk)`: parsing the sorted-key serialization
recovers exactly the serialized fields of the JWK. -/
def parseJwkString (jwk : JsonWebKey) : JsonWebKey :=
  { alg := jwk.alg, d := jwk.d, e := jwk.e, kty := jwk.kty, n := jwk.n }

namespace CryptoOps

/-- Source `CryptoOps.signJwt`: looks up the cached key pair by kid (failing with
`signingKeyNotFoundInStorage` when absent), builds the `alg`/`type` header,
attaches the public JWK as `cnf.jwk`, base64url-encodes header and payload,
joins with a dot, signs the bytes of that string with the cached private key
and appends the base64url signature as the third segment. -/
def signJwt (env : CryptoEnv) (st : CryptoKeyStore)
    (payload : SignedHttpRequest) (kid : String) :
    Except BrowserAuthError String :=
  match AsyncMemoryStorage.getItem st.asymmetricKeys kid with
  | none => .error .signingKeyNotFoundInStorage
  | some cachedKeyPair =>
    let publicKeyJwk := env.exportJwk cachedKeyPair.publicKey
    let header : JwtHeader := { alg := publicKeyJwk.alg, type := "jwk" }
    let encodedHeader := env.urlEncode (jsonHeader header)
    let payload1 := { payload with cnf := some (parseJwkString publicKeyJwk) }
    let encodedPayload := env.urlEncode (jsonPayload payload1)
    let tokenString := encodedHeader ++ "." ++ encodedPayload
    let tokenBuffer := stringToBytes tokenString
    let signatureBuffer :=
      env.sign CryptoKeyConfig.AccessTokenBinding cachedKeyPair.privateKey tokenBuffer
    let encodedSignature := env.urlEncodeArr signatureBuffer
    .ok (tokenString ++ "." ++ encodedSignature)

end CryptoOps

/-- Components of a parsed resource URL, as the SHR payload consumes them. -/
structure UrlComponents where
  hostNameAndPort : String
  absolutePath : String
  queryString : String
  deriving DecidableEq, Repr

/-- Split a character list at the first occurrence of `c`: the part before it,
and (when found) the part after it. -/
def splitAtChar : List Char → Char → List Char × Option (List Char)
  | [], _ => ([], none)
  | x :: xs, c =>
    if x = c then ([], some xs)
    else
      let r := splitAtChar xs c
      (x :: r.1, r.2)

/-- Modelled from the spec: `UrlString.getUrlComponents` (not part of the
excerpt) — `u` is the host:port authority, `p` the absolute path, and the
query string excludes the leading question mark. -/
def getUrlComponents (url : String) : UrlComponents :=
  let afterScheme := ((splitAtChar url.data ':').2.getD []).drop 2
  let hostSplit := splitAtChar afterScheme '/'
  let pathSplit := splitAtChar (hostSplit.2.getD []) '?'
  { hostNameAndPort := String.mk hostSplit.1
    absolutePath := String.mk ('/' :: pathSplit.1)
    queryString := String.mk (pathSplit.2.getD []) }

/-- Source `BaseAuthRequest`: the request fields the PoP token generator reads. -/
structure BaseAuthRequest where
  resourceRequestMethod : Option String := none
  resourceRequestUri : Option String := none
  shrClaims : Option String := none
  shrNonce : Option String := none
  deriving DecidableEq, Repr

/-- Modelled from the spec: the claim set `PopTokenGenerator.signPopToken`
(not part of the excerpt) passes to `signJwt` — `at` is the access token,
`ts` the current unix seconds, `m`/`u`/`p`/`q` derived from
`resourceRequestMethod` and the parsed `resourceRequestUri` (each `undefined`
when absent, `q` being `[[], queryString]` when a URL is present), `nonce` the
supplied `shrNonce` or a freshly generated GUID, and `client_claims` the
`shrClaims` verbatim. `newGuid` and `now` are the generator's injection points
for the fresh nonce and the timestamp. -/
def signPopTokenPayload (newGuid : String) (now : Nat) (accessToken : String)
    (request : BaseAuthRequest) : SignedHttpRequest :=
  let urlComponents := request.resourceRequestUri.map getUrlComponents
  { «at» := some accessToken
    ts := some now
    m := request.resourceRequestMethod
    u := urlComponents.map UrlComponents.hostNameAndPort
    nonce := some (request.shrNonce.getD newGuid)
    p := urlComponents.map UrlComponents.absolutePath
    q := urlComponents.map (fun c => (([] : List String), c.queryString))
    client_claims := request.shrClaims
    cnf := none }

/-- Source `ThrottlingEntity`: the cached throttling record. -/
structure ThrottlingEntity where
  throttleTime : Nat
  error : Option String := none
  errorCodes : Option (List String) := none
  subError : Option String := none
  deriving DecidableEq, Repr

/-- The throttling error surfaced by the pre-flight gate, carrying the cached
diagnostic fields verbatim. -/
structure ThrottlingErrorInfo where
  error : Option String
  errorCodes : Option (List String)
  subError : Option String
  deriving DecidableEq, Repr

/-- The shared cache namespace holding throttling entries, keyed by the
request thumbprint. -/
def ThrottleCache : Type := StoreMap ThrottlingEntity

/-- A network response as the throttling gate inspects it. -/
structure NetworkResponse where
  status : Nat
  retryAfterHeader : Option Nat := none
  deriving DecidableEq, Repr

/-- Modelled from the spec: `ThrottlingUtils.preProcess` (not part of the
excerpt) — look up the throttling entry for the thumbprint; when present with
`throttleTime` still in the future, abort with a throttling error carrying the
cached fields; when present but expired, delete it lazily and proceed. -/
def preProcess (cache : ThrottleCache) (now : Nat) (thumbprint : String) :
    Except ThrottlingErrorInfo ThrottleCache :=
  match AsyncMemoryStorage.getItem cache thumbprint with
  | some entry =>
    if now < entry.throttleTime then
      .error { error := entry.error, errorCodes := entry.errorCodes,
               subError := entry.subError }
    else
      .ok (AsyncMemoryStorage.removeItem cache thumbprint)
  | none => .ok cache

/-- Modelled from the spec: the default backoff window applied when the
server suggests no `Retry-After` delay. -/
def DEFAULT_THROTTLE_TIME_SECONDS : Nat := 60

/-- Modelled from the spec: `ThrottlingUtils.postProcess` (not part of the
excerpt) — after a response, upsert a throttling entry keyed by the same
thumbprint when the response carries a throttling signal (status ≥ 500,
status 429, or a `Retry-After` header); leave the cache untouched otherwise. -/
def postProcess (cache : ThrottleCache) (now : Nat) (thumbprint : String)
    (response : NetworkResponse) : ThrottleCache :=
  if response.status ≥ 500 ∨ response.status = 429 ∨
      response.retryAfterHeader.isSome then
    AsyncMemoryStorage.setItem cache thumbprint
      { throttleTime :=
          now + (response.retryAfterHeader.getD DEFAULT_THROTTLE_TIME_SECONDS) }
  else cache

/-- The externally visible effects of one `sendPostRequest` call, in the
order they happen. -/
inductive SendEvent where
  | preFlight (thumbprint : String)
  | networkCall
  | postFlight (thumbprint : String)
  deriving DecidableEq, Repr

/-- Errors `sendPostRequest` can surface: the pre-flight throttling
short-circuit, or a propagated network-client failure. -/
inductive SendError where
  | throttled (info : ThrottlingErrorInfo)
  | network (msg : String)
  deriving DecidableEq, Repr

/-- Source `BaseClient.sendPostRequest`: runs the throttling pre-flight on the
thumbprint, then the network client (whose outcome is the `net` parameter),
then — only when a response was received — the post-flight update with the
same thumbprint. Network-client exceptions propagate without a post-flight
update. The event trace records the order of effects. -/
def sendPostRequest (cache : ThrottleCache) (now : Nat)
    (net : Except String NetworkResponse) (thumbprint : String) :
    Except SendError NetworkResponse × List SendEvent × ThrottleCache :=
  match preProcess cache now thumbprint with
  | .error info =>
    (.error (.throttled info), [.preFlight thumbprint], cache)
  | .ok cache1 =>
    match net with
    | .error msg =>
      (.error (.network msg), [.preFlight thumbprint, .networkCall], cache1)
    | .ok response =>
      (.ok response,
       [.preFlight thumbprint, .networkCall, .postFlight thumbprint],
       postProcess cache1 now thumbprint response)

/-- A request is throttled when the cache holds an entry for its thumbprint
whose `throttleTime` is still in the future. -/
def isThrottled (cache : ThrottleCache) (now : Nat) (thumbprint : String) : Bool :=
  match AsyncMemoryStorage.getItem cache thumbprint with
  | some entry => decide (now < entry.throttleTime)
  | none => false

namespace NativeAuth

/-- The native-auth error values the sign-in flow produces or catches. -/
inductive NativeError where
  | invalidArgument (argName : String) (correlationId : String)
  | unexpected (msg : String)
  | userNotFound (correlationId : String)
  | clientFailure (msg : String)
  deriving DecidableEq, Repr

/-- Account data returned on a completed sign-in. -/
structure AccountInfo where
  account : String
  correlationId : String
  deriving DecidableEq, Repr

/-- The next-state handlers a partial sign-in can return. -/
inductive SignInState where
  | codeRequired (continuationToken : String) (correlationId : String)
  | passwordRequired (continuationToken : String) (correlationId : String)
  deriving DecidableEq, Repr

/-- Source `SignInResult`: result data, an optional next-state handler, or an
error — mirroring `ResultBase`'s `data`/`state`/`error` slots. -/
structure SignInResult where
  data : Option AccountInfo := none
  state : Option SignInState := none
  error : Option NativeError := none
  deriving DecidableEq, Repr

/-- Source `SignInResult.createWithError`: wraps an error into a result instead of
throwing it to the caller. -/
def SignInResult.createWithError (e : NativeError) : SignInResult :=
  { error := some e }

/-- Source `SignInInputs`: the caller-supplied sign-in options. An absent or empty
`username` is falsy in the source's `!signInOptions.username` check. -/
structure SignInInputs where
  username : String
  password : Option String := none
  scopes : Option (List String) := none
  correlationId : Option String := none
  deriving DecidableEq, Repr

/-- Source `SignInStartParams` as built by the controller (authority, client id,
correlation id, challenge types, scopes, username, password). -/
structure SignInStartParams where
  authority : Option String
  clientId : String
  correlationId : String
  challengeTypes : List String
  scopes : List String
  username : String
  password : Option String
  deriving DecidableEq, Repr

/-- Source `SignInSubmitPasswordParams` as built by the controller for the silent
password submission. -/
structure SignInSubmitPasswordParams where
  authority : Option String
  clientId : String
  correlationId : String
  challengeTypes : List String
  scopes : List String
  continuationToken : String
  password : String
  deriving DecidableEq, Repr

/-- The outcomes `signInClient.start` can resolve with: a
`SignInWithContinuationTokenResult`, a `SignInCodeSendResponse`, or any other
value (which the controller treats as unexpected). -/
inductive SignInStartOutcome where
  | withContinuationToken (continuationToken : String)
  | codeSendResponse (continuationToken : String)
  | otherOutcome
  deriving DecidableEq, Repr

/-- The dependencies `NativeAuthStandardController.signIn` calls into: the
sign-in interaction client, the GUID generator backing `getCorrelationId`,
and the configuration fields it reads. -/
structure SignInEnv where
  start : SignInStartParams → Except NativeError SignInStartOutcome
  submitPassword : SignInSubmitPasswordParams → Except NativeError AccountInfo
  newGuid : String
  authority : Option String
  clientId : String
  challengeTypes : Option (List String)

/-- Source `getCorrelationId`: the caller's correlation id, or a fresh GUID. -/
def getCorrelationId (env : SignInEnv) (opts : SignInInputs) : String :=
  opts.correlationId.getD env.newGuid

/-- The `try` block of `NativeAuthStandardController.signIn`: start the flow,
then dispatch on the start result — password-required state when no password
was supplied, silent password submission otherwise, code-required state on a
code-send response, and a thrown `UnexpectedError` on any other outcome. -/
def signInFlowBody (env : SignInEnv) (opts : SignInInputs)
    (correlationId : String) : Except NativeError SignInResult :=
  let authorityUrl := env.authority
  let startParams : SignInStartParams :=
    { authority := authorityUrl
      clientId := env.clientId
      correlationId := correlationId
      challengeTypes := env.challengeTypes.getD []
      scopes := opts.scopes.getD []
      username := opts.username
      password := opts.password }
  match env.start startParams with
  | .error e => .error e
  | .ok (.withContinuationToken continuationToken) =>
    match opts.password with
    | none =>
      .ok { state := some (.passwordRequired continuationToken correlationId) }
    | some pwd =>
      let submitParams : SignInSubmitPasswordParams :=
        { authority := authorityUrl
          clientId := env.clientId
          correlationId := correlationId
          challengeTypes := env.challengeTypes.getD []
          scopes := opts.scopes.getD []
          continuationToken := continuationToken
          password := pwd }
      match env.submitPassword submitParams with
      | .error e => .error e
      | .ok accountManager => .ok { data := some accountManager }
  | .ok (.codeSendResponse continuationToken) =>
    .ok { state := some (.codeRequired continuationToken correlationId) }
  | .ok .otherOutcome => .error (.unexpected "Unknow SignInStartResult type")

/-- Source `NativeAuthStandardController.signIn`: an empty username resolves to a
`SignInResult` carrying an `InvalidArgumentError`; the flow body runs inside
a `try`/`catch` whose handler resolves with `SignInResult.createWithError`.
The `Except` layer of the result models promise rejection: an `.error` here
would be a rejected promise. -/
def signIn (env : SignInEnv) (opts : SignInInputs) :
    Except NativeError SignInResult :=
  let correlationId := getCorrelationId env opts
  if opts.username = "" then
    .ok (SignInResult.createWithError (.invalidArgument "username" correlationId))
  else
    match signInFlowBody env opts correlationId with
    | .ok result => .ok result
    | .error e => .ok (SignInResult.createWithError e)

end NativeAuth

/-- Whether an `Except` computation succeeded. -/
def exceptIsOk {ε α : Type} : Except ε α → Bool
  | .ok _ => true
  | .error _ => false

/-- A concrete well-behaved crypto capability used to instantiate the
theorems: key generation always yields both halves with the requested
extractable flag, export produces an RSA public JWK for the public key and a
JWK with a private exponent for the private key, import honours the requested
extractable flag, and the encoders are concrete injective string builders. -/
def testEnv : CryptoEnv :=
  { generateKeyPair := fun _ ext => .ok { publicKey := some ⟨1, ext⟩, privateKey := some ⟨2, ext⟩ }
    exportJwk := fun k =>
      if k.keyId = 1 then
        { alg := some "RS256", e := some "AQAB", kty := some "RSA", n := some "testmodulus" }
      else
        { d := some "privexp", e := some "AQAB", kty := some "RSA", n := some "testmodulus" }
    importJwk := fun _ _ ext _ => ⟨3, ext⟩
    sign := fun _ _ bytes => bytes.take 4
    sha256Digest := fun s => [s.length % 256, 7]
    urlEncode := fun s => "enc." ++ s
    urlEncodeArr := fun bs => "b64." ++ String.intercalate "-" (bs.map toString) }

/-- A capability whose key generation throws. -/
def testEnvGenThrows : CryptoEnv :=
  { testEnv with generateKeyPair := fun _ _ => .error (some "keygen blew up") }

/-- A malformed capability whose key generation resolves without the private
half. -/
def testEnvMissingHalf : CryptoEnv :=
  { testEnv with
    generateKeyPair := fun _ ext => .ok { publicKey := some ⟨1, ext⟩, privateKey := none } }

/-- An empty key store. -/
def emptyStore : CryptoKeyStore := { asymmetricKeys := [], symmetricKeys := [] }

/-- A key store holding one symmetric key. -/
def storeWithSym : CryptoKeyStore :=
  { asymmetricKeys := [], symmetricKeys := [("symkid", ⟨9, false⟩)] }

/-- A request with no resource binding metadata. -/
def testReq : CryptoOps.SignedHttpRequestParameters :=
  { resourceRequestMethod := none, resourceRequestUri := none }

/-- The key store produced by one `getPublicKeyThumbprint` call against the
concrete capability, starting from the empty store. -/
def storeAfterGen : CryptoKeyStore :=
  (CryptoOps.getPublicKeyThumbprint testEnv emptyStore testReq none).2

/-- The thumbprint returned by that call. -/
def thumbAfterGen : String :=
  match (CryptoOps.getPublicKeyThumbprint testEnv emptyStore testReq none).1 with
  | .ok t => t
  | .error _ => ""

/-- The cached key pair that call stores: the generated public key and the
re-imported, unextractable private key. -/
def ckpAfterGen : CachedKeyPair :=
  { publicKey := ⟨1, true⟩, privateKey := ⟨3, false⟩
    requestMethod := none, requestUri := none }

/-- An empty SHR payload to sign. -/
def testPayload : SignedHttpRequest := {}

/-- A key store holding one cached asymmetric key pair under "kid1". -/
def c8Store : CryptoKeyStore :=
  { asymmetricKeys := [("kid1", ckpAfterGen)], symmetricKeys := [] }

/-- A throttling cache holding an entry for thumbprint "tp1" that expires at
time 100, carrying the original server diagnostics. -/
def throttledCache : ThrottleCache :=
  [("tp1", { throttleTime := 100, error := some "server_error"
             errorCodes := some ["7000"], subError := some "sub" })]

/-- A sign-in environment whose start call fails with a user-not-found
error. -/
def testSignInEnv : NativeAuth.SignInEnv :=
  { start := fun _ => .error (.userNotFound "cid-1")
    submitPassword := fun _ => .error (.unexpected "unreachable")
    newGuid := "guid-1"
    authority := some "https://login.example.com/tenant"
    clientId := "client-1"
    challengeTypes := some ["password"] }

/-- Sign-in options with a username present. -/
def testSignInOpts : NativeAuth.SignInInputs :=
  { username := "user@example.com", password := some "hunter2" }

theorem getItem_setItem_self {α : Type} (s : StoreMap α) (k : String) (v : α) :
    AsyncMemoryStorage.getItem (AsyncMemoryStorage.setItem s k v) k = some v := by
  simp [AsyncMemoryStorage.getItem, AsyncMemoryStorage.setItem, List.find?]

theorem getItem_removeItem_self {α : Type} (s : StoreMap α) (k : String) :
    AsyncMemoryStorage.getItem (AsyncMemoryStorage.removeItem s k) k = none := by
  simp only [AsyncMemoryStorage.getItem, AsyncMemoryStorage.removeItem,
    Option.map_eq_none']
  rw [List.find?_eq_none]
  intro x hx
  have hne := (List.mem_filter.mp hx).2
  simp only [decide_eq_true_eq] at hne ⊢
  simpa using hne

theorem containsKey_removeItem_self {α : Type} (s : StoreMap α) (k : String) :
    AsyncMemoryStorage.containsKey (AsyncMemoryStorage.removeItem s k) k = false := by
  simp only [AsyncMemoryStorage.containsKey, AsyncMemoryStorage.removeItem]
  rw [Bool.eq_false_iff]
  intro hany
  obtain ⟨x, hx, hxk⟩ := List.any_eq_true.mp hany
  have hne := (List.mem_filter.mp hx).2
  simp only [decide_eq_true_eq] at hxk hne
  exact hne hxk

/-- The claim, as stated, is false: `clearKeystore` deletes the database of
the first partition only, so a symmetric key stored before the call is still
retrievable afterwards. Concretely, `storeWithSym` holds the symmetric key
`⟨9, false⟩` under `"symkid"`, and after `clearKeystore` the same lookup still
returns it. -/
theorem clearKeystore_leaves_symmetric_partition :
    AsyncMemoryStorage.getItem
      (CryptoOps.clearKeystore storeWithSym).2.symmetricKeys "symkid" =
      some ⟨9, false⟩ := by
  rfl

/-- C1 (amended): `clearKeystore()` wipes the asymmetric partition — the
first of the two partitions, the only one whose `deleteDatabase` the code
invokes — and returns that wipe's success flag; every asymmetric lookup
afterwards returns absent, while the symmetric partition is left exactly as
it was. -/
theorem clearKeystore_clears_asymmetric_only (st : CryptoKeyStore) (k : String) :
    (CryptoOps.clearKeystore st).1 = true
    ∧ AsyncMemoryStorage.getItem (CryptoOps.clearKeystore st).2.asymmetricKeys k = none
    ∧ (CryptoOps.clearKeystore st).2.symmetricKeys = st.symmetricKeys := by
  refine ⟨rfl, rfl, rfl⟩

/-- The claim, as stated, is false: `removeTokenBindingKey` returns the
negation of a post-removal `containsKey` check, so it returns `true` even
when no key was removed. Concretely, the store is empty — `"kid1"` was never
present, so nothing is removed — yet the call returns `true`. -/
theorem removeTokenBindingKey_true_without_removal :
    (CryptoOps.removeTokenBindingKey emptyStore "kid1").1 = true
    ∧ AsyncMemoryStorage.containsKey emptyStore.asymmetricKeys "kid1" = false := by
  exact ⟨rfl, rfl⟩

/-- C2 (amended): after `removeTokenBindingKey(kid)` the kid is no longer
retrievable — a lookup of the same kid returns absent — and the return value
is `true` exactly when the kid is absent from the store afterwards (which in
particular is `true` even when the key was never present). -/
theorem removeTokenBindingKey_absent_after (st : CryptoKeyStore) (kid : String) :
    AsyncMemoryStorage.getItem
      (CryptoOps.removeTokenBindingKey st kid).2.asymmetricKeys kid = none
    ∧ (CryptoOps.removeTokenBindingKey st kid).1 =
        !AsyncMemoryStorage.containsKey
          (CryptoOps.removeTokenBindingKey st kid).2.asymmetricKeys kid
    ∧ (CryptoOps.removeTokenBindingKey st kid).1 = true := by
  refine ⟨getItem_removeItem_self st.asymmetricKeys kid, rfl, ?_⟩
  simp [CryptoOps.removeTokenBindingKey, containsKey_removeItem_self]

/-- The thumbprint `getPublicKeyThumbprint` derives for a public key: the
base64url-encoded SHA-256 digest of the canonicalized public JWK string,
which contains exactly the `e`, `kty`, `n` fields of the exported JWK. -/
def thumbprintOfPublicKey (env : CryptoEnv) (pub : CryptoKey) : String :=
  CryptoOps.hashString env (getJwkString
    { e := (env.exportJwk pub).e, kty := (env.exportJwk pub).kty,
      n := (env.exportJwk pub).n })

/-- The `CachedKeyPair` value `getPublicKeyThumbprint` stores: the generated
public key and the private key re-imported with `extractable = false`, plus
the request's binding metadata. -/
def storedKeyPair (env : CryptoEnv) (req : CryptoOps.SignedHttpRequestParameters)
    (kt : Option CryptoKeyTypes) (pub priv : CryptoKey) : CachedKeyPair :=
  { publicKey := pub
    privateKey := env.importJwk (CryptoOps.keyOptionsFor kt) (env.exportJwk priv)
      false (CryptoOps.keyOptionsFor kt).privateKeyUsage
    requestMethod := req.resourceRequestMethod
    requestUri := req.resourceRequestUri }

/-- Characterization of the success path of `getPublicKeyThumbprint`: when
key generation yields both halves, the call returns the base64url SHA-256
hash of the canonicalized public JWK and upserts the cached key pair — the
generated public key and the re-imported private key — under that hash. -/
theorem getPublicKeyThumbprint_ok_eq (env : CryptoEnv) (st : CryptoKeyStore)
    (req : CryptoOps.SignedHttpRequestParameters) (kt : Option CryptoKeyTypes)
    (kp : KeyGenResult) (pub priv : CryptoKey)
    (hgen : env.generateKeyPair (CryptoOps.keyOptionsFor kt) CryptoOps.EXTRACTABLE = .ok kp)
    (hpub : kp.publicKey = some pub) (hpriv : kp.privateKey = some priv) :
    CryptoOps.getPublicKeyThumbprint env st req kt =
      (.ok (thumbprintOfPublicKey env pub),
       { st with asymmetricKeys := AsyncMemoryStorage.setItem st.asymmetricKeys (thumbprintOfPublicKey env pub) (storedKeyPair env req kt pub priv) }) := by
  simp only [CryptoOps.getPublicKeyThumbprint, CryptoOps.generateKeyPairHelper,
    hgen, hpub, hpriv, thumbprintOfPublicKey, storedKeyPair]

/-- Characterization of the failure paths of `getPublicKeyThumbprint`: a
throwing `generateKeyPair`, or one resolving with a missing half, makes the
call fail with a key-generation-failed error and leave the store untouched. -/
theorem getPublicKeyThumbprint_error_eq (env : CryptoEnv) (st : CryptoKeyStore)
    (req : CryptoOps.SignedHttpRequestParameters) (kt : Option CryptoKeyTypes) :
    (∀ msg, env.generateKeyPair (CryptoOps.keyOptionsFor kt) CryptoOps.EXTRACTABLE = .error msg →
      CryptoOps.getPublicKeyThumbprint env st req kt =
        (.error (.keyGenerationFailed msg), st))
    ∧ (∀ kp, env.generateKeyPair (CryptoOps.keyOptionsFor kt) CryptoOps.EXTRACTABLE = .ok kp →
        kp.publicKey = none ∨ kp.privateKey = none →
        CryptoOps.getPublicKeyThumbprint env st req kt =
          (.error (.keyGenerationFailed (some
            "Either the public or private key component is missing from the generated CryptoKeyPair")),
           st)) := by
  constructor
  · intro msg hmsg
    simp only [CryptoOps.getPublicKeyThumbprint, CryptoOps.generateKeyPairHelper, hmsg]
  · intro kp hkp hmissing
    rcases hmissing with h | h
    · simp only [CryptoOps.getPublicKeyThumbprint, CryptoOps.generateKeyPairHelper,
        hkp, h]
    · cases hp : kp.publicKey <;>
        simp only [CryptoOps.getPublicKeyThumbprint, CryptoOps.generateKeyPairHelper,
          hkp, h, hp]

theorem find_filter_of_imp {α : Type} (s : List α) (p q : α → Bool)
    (himp : ∀ x, p x = true → q x = true) :
    List.find? p (List.filter q s) = List.find? p s := by
  induction s with
  | nil => rfl
  | cons hd tl ih =>
    by_cases hq : q hd = true
    · rw [List.filter_cons_of_pos hq]
      cases hp : p hd with
      | true => rw [List.find?_cons_of_pos _ hp, List.find?_cons_of_pos _ hp]
      | false =>
        rw [List.find?_cons_of_neg _ (by simp [hp]),
          List.find?_cons_of_neg _ (by simp [hp])]
        exact ih
    · have hp : p hd = false := by
        cases hps : p hd with
        | true => exact absurd (himp hd hps) hq
        | false => rfl
      rw [List.filter_cons_of_neg (by simp [hq]),
        List.find?_cons_of_neg _ (by simp [hp])]
      exact ih

theorem getItem_setItem_cases {α : Type} (s : StoreMap α) (k0 k : String) (v w : α)
    (h : AsyncMemoryStorage.getItem (AsyncMemoryStorage.setItem s k0 v) k = some w) :
    (k = k0 ∧ w = v) ∨ AsyncMemoryStorage.getItem s k = some w := by
  by_cases hk : k0 = k
  · left
    subst hk
    rw [getItem_setItem_self] at h
    exact ⟨rfl, (Option.some.inj h).symm⟩
  · right
    simp only [AsyncMemoryStorage.getItem, AsyncMemoryStorage.setItem] at h ⊢
    rw [List.find?_cons_of_neg _ (by simp [hk]), find_filter_of_imp] at h
    · exact h
    · intro x hx
      simp only [decide_eq_true_eq] at hx ⊢
      intro hx0
      exact hk (hx0 ▸ hx)

/-- C3: signing with a kid that is absent from the key store fails with the
`signingKeyNotFoundInStorage` error, while signing with the thumbprint
returned by a preceding `getPublicKeyThumbprint` call — which stores the key
pair under that thumbprint — succeeds. -/
theorem signJwt_key_lookup (env : CryptoEnv) (st : CryptoKeyStore)
    (payload : SignedHttpRequest) (kid : String)
    (req : CryptoOps.SignedHttpRequestParameters) (kt : Option CryptoKeyTypes) :
    (AsyncMemoryStorage.getItem st.asymmetricKeys kid = none →
      CryptoOps.signJwt env st payload kid = .error .signingKeyNotFoundInStorage)
    ∧ (∀ tp st', CryptoOps.getPublicKeyThumbprint env st req kt = (.ok tp, st') →
        exceptIsOk (CryptoOps.signJwt env st' payload tp) = true) := by
  constructor
  · intro h
    simp only [CryptoOps.signJwt, h]
  · intro tp st' h
    cases hgen : env.generateKeyPair (CryptoOps.keyOptionsFor kt) CryptoOps.EXTRACTABLE with
    | error msg =>
      rw [(getPublicKeyThumbprint_error_eq env st req kt).1 msg hgen] at h
      simp at h
    | ok kp =>
      cases hpub : kp.publicKey with
      | none =>
        rw [(getPublicKeyThumbprint_error_eq env st req kt).2 kp hgen (Or.inl hpub)] at h
        simp at h
      | some pub =>
        cases hpriv : kp.privateKey with
        | none =>
          rw [(getPublicKeyThumbprint_error_eq env st req kt).2 kp hgen (Or.inr hpriv)] at h
          simp at h
        | some priv =>
          rw [getPublicKeyThumbprint_ok_eq env st req kt kp pub priv hgen hpub hpriv] at h
          simp only [Prod.mk.injEq, Except.ok.injEq] at h
          obtain ⟨h1, h2⟩ := h
          subst h1
          subst h2
          simp only [CryptoOps.signJwt, getItem_setItem_self, exceptIsOk]

/-- C3 witness: against the concrete capability, signing with an unknown kid
fails with the signing-key-not-found error, and signing with the thumbprint
of a freshly generated key pair succeeds. -/
theorem signJwt_key_lookup_witness :
    CryptoOps.signJwt testEnv emptyStore testPayload "missing-kid" =
      .error .signingKeyNotFoundInStorage
    ∧ exceptIsOk (CryptoOps.signJwt testEnv storeAfterGen testPayload thumbAfterGen) = true := by
  constructor
  · exact (signJwt_key_lookup testEnv emptyStore testPayload "missing-kid" testReq none).1 rfl
  · exact (signJwt_key_lookup testEnv emptyStore testPayload "missing-kid" testReq
      none).2 thumbAfterGen storeAfterGen rfl

/-- C4: the thumbprint returned by `getPublicKeyThumbprint` is the base64url
encoding of the SHA-256 digest of the JWK string containing exactly the
fields `e`, `kty`, `n` of the exported public JWK, in that order, and the
generated key pair is stored in the asymmetric partition under exactly that
thumbprint. -/
theorem getPublicKeyThumbprint_thumbprint_spec (env : CryptoEnv) (st : CryptoKeyStore)
    (req : CryptoOps.SignedHttpRequestParameters) (kt : Option CryptoKeyTypes)
    (kp : KeyGenResult) (pub priv : CryptoKey) (ev kv nv : String)
    (hgen : env.generateKeyPair (CryptoOps.keyOptionsFor kt) CryptoOps.EXTRACTABLE = .ok kp)
    (hpub : kp.publicKey = some pub) (hpriv : kp.privateKey = some priv)
    (he : (env.exportJwk pub).e = some ev)
    (hkty : (env.exportJwk pub).kty = some kv)
    (hn : (env.exportJwk pub).n = some nv) :
    (CryptoOps.getPublicKeyThumbprint env st req kt).1 =
      .ok (env.urlEncodeArr (env.sha256Digest ("\x7b" ++
        String.intercalate "," [jsonStrField "e" ev, jsonStrField "kty" kv, jsonStrField "n" nv] ++ "\x7d")))
    ∧ AsyncMemoryStorage.getItem
        (CryptoOps.getPublicKeyThumbprint env st req kt).2.asymmetricKeys
        (env.urlEncodeArr (env.sha256Digest ("\x7b" ++
          String.intercalate "," [jsonStrField "e" ev, jsonStrField "kty" kv, jsonStrField "n" nv] ++ "\x7d"))) =
      some (storedKeyPair env req kt pub priv) := by
  have hthumb : thumbprintOfPublicKey env pub =
      env.urlEncodeArr (env.sha256Digest ("\x7b" ++
        String.intercalate "," [jsonStrField "e" ev, jsonStrField "kty" kv, jsonStrField "n" nv] ++ "\x7d")) := by
    simp only [thumbprintOfPublicKey, CryptoOps.hashString, getJwkString, he, hkty, hn]
    rfl
  rw [getPublicKeyThumbprint_ok_eq env st req kt kp pub priv hgen hpub hpriv, ← hthumb]
  exact ⟨rfl, getItem_setItem_self st.asymmetricKeys (thumbprintOfPublicKey env pub)
    (storedKeyPair env req kt pub priv)⟩

/-- C4 witness: the concrete capability exports the public JWK
`(e, kty, n) = ("AQAB", "RSA", "testmodulus")`, and the call returns the
hash of exactly that three-field JWK string and stores the pair under it. -/
theorem getPublicKeyThumbprint_thumbprint_spec_witness :
    (CryptoOps.getPublicKeyThumbprint testEnv emptyStore testReq none).1 =
      .ok (testEnv.urlEncodeArr (testEnv.sha256Digest ("\x7b" ++
        String.intercalate "," [jsonStrField "e" "AQAB", jsonStrField "kty" "RSA", jsonStrField "n" "testmodulus"] ++ "\x7d")))
    ∧ AsyncMemoryStorage.getItem
        (CryptoOps.getPublicKeyThumbprint testEnv emptyStore testReq none).2.asymmetricKeys
        (testEnv.urlEncodeArr (testEnv.sha256Digest ("\x7b" ++
          String.intercalate "," [jsonStrField "e" "AQAB", jsonStrField "kty" "RSA", jsonStrField "n" "testmodulus"] ++ "\x7d"))) =
      some (storedKeyPair testEnv testReq none ⟨1, true⟩ ⟨2, true⟩) := by
  exact getPublicKeyThumbprint_thumbprint_spec testEnv emptyStore testReq none
    ⟨some ⟨1, true⟩, some ⟨2, true⟩⟩ ⟨1, true⟩ ⟨2, true⟩ "AQAB" "RSA" "testmodulus"
    rfl rfl rfl rfl rfl rfl

/-- C5: when the crypto capability honours the requested extractable flag on
import, every cached key pair `getPublicKeyThumbprint` leaves in the key
store has a non-extractable private key — the generated private key is
re-imported with `extractable = false` before being stored, even though the
key pair itself is generated with `EXTRACTABLE = true`. -/
theorem cached_private_key_unextractable (env : CryptoEnv) (st : CryptoKeyStore)
    (req : CryptoOps.SignedHttpRequestParameters) (kt : Option CryptoKeyTypes)
    (hImport : ∀ o j ext u, (env.importJwk o j ext u).extractable = ext)
    (hInv : ∀ k ckp, AsyncMemoryStorage.getItem st.asymmetricKeys k = some ckp →
      ckp.privateKey.extractable = false) :
    ∀ k ckp, AsyncMemoryStorage.getItem
        (CryptoOps.getPublicKeyThumbprint env st req kt).2.asymmetricKeys k = some ckp →
      ckp.privateKey.extractable = false := by
  intro k ckp hget
  cases hgen : env.generateKeyPair (CryptoOps.keyOptionsFor kt) CryptoOps.EXTRACTABLE with
  | error msg =>
    rw [(getPublicKeyThumbprint_error_eq env st req kt).1 msg hgen] at hget
    exact hInv k ckp hget
  | ok kp =>
    cases hpub : kp.publicKey with
    | none =>
      rw [(getPublicKeyThumbprint_error_eq env st req kt).2 kp hgen (Or.inl hpub)] at hget
      exact hInv k ckp hget
    | some pub =>
      cases hpriv : kp.privateKey with
      | none =>
        rw [(getPublicKeyThumbprint_error_eq env st req kt).2 kp hgen (Or.inr hpriv)] at hget
        exact hInv k ckp hget
      | some priv =>
        rw [getPublicKeyThumbprint_ok_eq env st req kt kp pub priv hgen hpub hpriv] at hget
        rcases getItem_setItem_cases _ _ _ _ _ hget with ⟨_, hw⟩ | hold
        · rw [hw]
          simp only [storedKeyPair]
          exact hImport _ _ _ _
        · exact hInv k ckp hold

/-- C5 witness: the private key cached for the freshly generated thumbprint
is non-extractable. -/
theorem cached_private_key_unextractable_witness :
    (AsyncMemoryStorage.getItem storeAfterGen.asymmetricKeys thumbAfterGen).map
      (fun ckp => ckp.privateKey.extractable) = some false := by
  have h := cached_private_key_unextractable testEnv emptyStore testReq none
    (fun _ _ _ _ => rfl)
    (fun k ckp hk => by simp [emptyStore, AsyncMemoryStorage.getItem] at hk)
  have hget : AsyncMemoryStorage.getItem storeAfterGen.asymmetricKeys thumbAfterGen =
      some ckpAfterGen := by rfl
  rw [hget, Option.map_some']
  rw [h thumbAfterGen ckpAfterGen hget]

/-- C6: whenever `generateKeyPair` throws, or resolves with either half of
the key pair missing, `getPublicKeyThumbprint` fails with a
key-generation-failed error, returns no thumbprint, and stores nothing — the
key store comes back exactly as it was. -/
theorem getPublicKeyThumbprint_keygen_failure (env : CryptoEnv) (st : CryptoKeyStore)
    (req : CryptoOps.SignedHttpRequestParameters) (kt : Option CryptoKeyTypes) :
    (∀ msg, env.generateKeyPair (CryptoOps.keyOptionsFor kt) CryptoOps.EXTRACTABLE = .error msg →
      CryptoOps.getPublicKeyThumbprint env st req kt =
        (.error (.keyGenerationFailed msg), st))
    ∧ (∀ kp, env.generateKeyPair (CryptoOps.keyOptionsFor kt) CryptoOps.EXTRACTABLE = .ok kp →
        kp.publicKey = none ∨ kp.privateKey = none →
        CryptoOps.getPublicKeyThumbprint env st req kt =
          (.error (.keyGenerationFailed (some
            "Either the public or private key component is missing from the generated CryptoKeyPair")),
           st)) :=
  getPublicKeyThumbprint_error_eq env st req kt

/-- C6 witness: a throwing key generation and a key generation missing its
private half both make the call fail with a key-generation-failed error and
leave the empty store empty. -/
theorem getPublicKeyThumbprint_keygen_failure_witness :
    CryptoOps.getPublicKeyThumbprint testEnvGenThrows emptyStore testReq none =
      (.error (.keyGenerationFailed (some "keygen blew up")), emptyStore)
    ∧ CryptoOps.getPublicKeyThumbprint testEnvMissingHalf emptyStore testReq none =
      (.error (.keyGenerationFailed (some
        "Either the public or private key component is missing from the generated CryptoKeyPair")),
       emptyStore) := by
  constructor
  · exact (getPublicKeyThumbprint_keygen_failure testEnvGenThrows emptyStore testReq
      none).1 (some "keygen blew up") rfl
  · exact (getPublicKeyThumbprint_keygen_failure testEnvMissingHalf emptyStore testReq
      none).2 ⟨some ⟨1, true⟩, none⟩ rfl (Or.inr rfl)

/-- C7: for a request with fixed nonce and timestamp, method `"POST"` and
the resource URL `https://resource.example/api?foo=bar`, the `signPopToken`
payload is exactly `at`, `ts`, `m = "POST"`, `u = "resource.example"`,
`nonce`, `p = "/api"`, `q = [[], "foo=bar"]` (query string without the
leading question mark) and `client_claims` carrying the request's claims
verbatim; with no resource method, URL or claims supplied, the fields `m`,
`u`, `p`, `q`, `client_claims` are all `undefined` and the nonce falls back
to the freshly generated GUID. -/
theorem signPopToken_payload_spec (accessToken guid nonce : String) (ts : Nat)
    (cl : Option String) :
    signPopTokenPayload guid ts accessToken
      { resourceRequestMethod := some "POST"
        resourceRequestUri := some "https://resource.example/api?foo=bar"
        shrClaims := cl, shrNonce := some nonce } =
      { «at» := some accessToken, ts := some ts, m := some "POST"
        u := some "resource.example", nonce := some nonce, p := some "/api"
        q := some ([], "foo=bar"), client_claims := cl, cnf := none }
    ∧ signPopTokenPayload guid ts accessToken {} =
      { «at» := some accessToken, ts := some ts, m := none, u := none
        nonce := some guid, p := none, q := none, client_claims := none
        cnf := none } := by
  constructor
  · have hurl : getUrlComponents "https://resource.example/api?foo=bar" =
        { hostNameAndPort := "resource.example", absolutePath := "/api"
          queryString := "foo=bar" } := by decide
    simp only [signPopTokenPayload, Option.map_some', hurl, Option.getD_some]
  · rfl

/-- The base64url-encoded first JWT segment `signJwt` produces: the JSON of
the header with `alg` from the exported public JWK and `type = "jwk"`. -/
def jwtHeaderSegment (env : CryptoEnv) (kp : CachedKeyPair) : String :=
  env.urlEncode (jsonHeader { alg := (env.exportJwk kp.publicKey).alg, type := "jwk" })

/-- The base64url-encoded second JWT segment `signJwt` produces: the JSON of
the payload with the public-key JWK attached as `cnf.jwk`. -/
def jwtPayloadSegment (env : CryptoEnv) (kp : CachedKeyPair)
    (payload : SignedHttpRequest) : String :=
  env.urlEncode (jsonPayload
    { payload with cnf := some (parseJwkString (env.exportJwk kp.publicKey)) })

/-- C8: for a cached kid, `signJwt` returns the compact three-segment JWT:
base64url of the JSON header (with `alg` taken from the cached public JWK
and `type = "jwk"`) and base64url of the JSON payload (carrying the public
JWK as `cnf.jwk`) joined by a dot, followed by the base64url-encoded
signature computed with the cached private key over the bytes of that
header-dot-payload string. -/
theorem signJwt_compact_jwt_format (env : CryptoEnv) (st : CryptoKeyStore)
    (payload : SignedHttpRequest) (kid : String) (kp : CachedKeyPair)
    (h : AsyncMemoryStorage.getItem st.asymmetricKeys kid = some kp) :
    CryptoOps.signJwt env st payload kid =
      .ok (jwtHeaderSegment env kp ++ "." ++ jwtPayloadSegment env kp payload ++
        "." ++ env.urlEncodeArr (env.sign CryptoKeyConfig.AccessTokenBinding
          kp.privateKey (stringToBytes
            (jwtHeaderSegment env kp ++ "." ++ jwtPayloadSegment env kp payload)))) := by
  simp only [CryptoOps.signJwt, h, jwtHeaderSegment, jwtPayloadSegment]

/-- C8 witness: the JWT produced for the concrete cached key pair under
`"kid1"` has exactly the three-segment shape. -/
theorem signJwt_compact_jwt_format_witness :
    CryptoOps.signJwt testEnv c8Store testPayload "kid1" =
      .ok (jwtHeaderSegment testEnv ckpAfterGen ++ "." ++
        jwtPayloadSegment testEnv ckpAfterGen testPayload ++ "." ++
        testEnv.urlEncodeArr (testEnv.sign CryptoKeyConfig.AccessTokenBinding
          ckpAfterGen.privateKey (stringToBytes
            (jwtHeaderSegment testEnv ckpAfterGen ++ "." ++
              jwtPayloadSegment testEnv ckpAfterGen testPayload)))) :=
  signJwt_compact_jwt_format testEnv c8Store testPayload "kid1" ckpAfterGen rfl

/-- C9: every `sendPostRequest` call runs the throttling pre-flight on the
request thumbprint first; a throttled request produces a throttling error
without any network call (and hence without a post-flight update); when the
network client returns a response, the post-flight update runs with the same
thumbprint after the network call; and a network-client exception propagates
without a post-flight update. -/
theorem sendPostRequest_throttling_gate (cache : ThrottleCache) (now : Nat)
    (net : Except String NetworkResponse) (tp : String) :
    (sendPostRequest cache now net tp).2.1.head? = some (.preFlight tp)
    ∧ (isThrottled cache now tp = true →
        (sendPostRequest cache now net tp).2.1 = [.preFlight tp]
        ∧ ∃ info, (sendPostRequest cache now net tp).1 = .error (.throttled info))
    ∧ (isThrottled cache now tp = false → ∀ resp, net = .ok resp →
        (sendPostRequest cache now net tp).2.1 =
          [.preFlight tp, .networkCall, .postFlight tp]
        ∧ (sendPostRequest cache now net tp).1 = .ok resp)
    ∧ (isThrottled cache now tp = false → ∀ msg, net = .error msg →
        (sendPostRequest cache now net tp).2.1 = [.preFlight tp, .networkCall]
        ∧ (sendPostRequest cache now net tp).1 = .error (.network msg)) := by
  cases hentry : AsyncMemoryStorage.getItem cache tp with
  | none =>
    cases net <;>
      simp [sendPostRequest, preProcess, isThrottled, hentry]
  | some entry =>
    by_cases ht : now < entry.throttleTime
    · cases net <;>
        simp [sendPostRequest, preProcess, isThrottled, hentry, ht]
    · cases net <;>
        simp [sendPostRequest, preProcess, isThrottled, hentry, ht]

/-- An empty throttling cache. -/
def emptyThrottleCache : ThrottleCache := []

/-- C9 witness: with a throttled entry for `"tp1"` the call stops at the
pre-flight check; with an empty cache and a 200 response the trace is
pre-flight, network, post-flight with the same thumbprint. -/
theorem sendPostRequest_throttling_gate_witness :
    (sendPostRequest throttledCache 50 (.ok { status := 200 }) "tp1").2.1 =
      [.preFlight "tp1"]
    ∧ (sendPostRequest emptyThrottleCache 50 (.ok { status := 200 }) "tp1").2.1 =
      [.preFlight "tp1", .networkCall, .postFlight "tp1"] := by
  constructor
  · exact ((sendPostRequest_throttling_gate throttledCache 50
      (.ok { status := 200 }) "tp1").2.1 (by decide)).1
  · exact ((sendPostRequest_throttling_gate emptyThrottleCache 50
      (.ok { status := 200 }) "tp1").2.2.1 rfl { status := 200 } rfl).1

/-- C10: `signIn` never turns a flow failure into a rejected promise: the
call always resolves — a missing username resolves to a `SignInResult`
carrying an `InvalidArgumentError` for `"username"`, and any error thrown
inside the sign-in flow body is caught and resolved as
`SignInResult.createWithError` of that error. -/
theorem signIn_never_rejects (env : NativeAuth.SignInEnv)
    (opts : NativeAuth.SignInInputs) :
    exceptIsOk (NativeAuth.signIn env opts) = true
    ∧ (opts.username = "" →
        NativeAuth.signIn env opts = .ok (NativeAuth.SignInResult.createWithError
          (.invalidArgument "username" (NativeAuth.getCorrelationId env opts))))
    ∧ (opts.username ≠ "" →
        ∀ e, NativeAuth.signInFlowBody env opts
            (NativeAuth.getCorrelationId env opts) = .error e →
          NativeAuth.signIn env opts =
            .ok (NativeAuth.SignInResult.createWithError e)) := by
  refine ⟨?_, ?_, ?_⟩
  · by_cases h : opts.username = ""
    · simp [NativeAuth.signIn, h, exceptIsOk]
    · simp only [NativeAuth.signIn, if_neg h]
      cases NativeAuth.signInFlowBody env opts (NativeAuth.getCorrelationId env opts) <;>
        simp [exceptIsOk]
  · intro h
    simp [NativeAuth.signIn, h]
  · intro hne e he
    simp [NativeAuth.signIn, if_neg hne, he]

/-- C10 witness: with a start call that throws a user-not-found error and a
username present, `signIn` resolves to a result carrying that error instead
of rejecting. -/
theorem signIn_never_rejects_witness :
    NativeAuth.signIn testSignInEnv testSignInOpts =
      .ok (NativeAuth.SignInResult.createWithError (.userNotFound "cid-1"))
    ∧ exceptIsOk (NativeAuth.signIn testSignInEnv testSignInOpts) = true := by
  have h := signIn_never_rejects testSignInEnv testSignInOpts
  exact ⟨h.2.2 (by decide) (.userNotFound "cid-1") rfl, h.1⟩

end Msal
